import Mathlib

/-!
Verification of the ipod-dock device-lifecycle and control-protocol layer.

Shallow embedding of the Python source (`ipod_sync/aap_controller.py`,
`ipod_sync/playback.py`, `ipod_sync/udev_listener.py`, `ipod_sync/utils.py`)
as executable Lean definitions, together with theorems settling the
specification claims about frame encoding, status-line decoding, partition
resolution, mount/unmount behaviour and the hotplug listener loop.

Bytes are modelled as `Nat` with explicit `% 256` where the code truncates;
external commands and filesystem observations are modelled as explicit
oracles/state so that the subprocess-driven functions become pure state
transformers.
-/

namespace IpodDock

/-- ChecksumCodec: `(-sum(bytes)) & 0xFF`, the two's-complement negation of
the byte sum truncated to 8 bits (Python semantics of `&` on a negative
int), as a function on `Nat` byte lists. -/
def checksum (bs : List Nat) : Nat :=
  (256 - bs.sum % 256) % 256

/-- Embeds `AAPController._send` (aap_controller.py lines 36-44): builds
`frame = bytearray([0xFF, 0x55, len(payload)]) + payload`, then appends
`(-sum(frame[2:])) & 0xFF`. -/
def sendFrame (payload : List Nat) : List Nat :=
  let frame := [0xFF, 0x55, payload.length] ++ payload
  frame ++ [checksum (frame.drop 2)]

/-- FrameCodec `encode(opcode, params)`: the frame `_send` emits for
`payload = [opcode] + params`. -/
def encode (opcode : Nat) (params : List Nat) : List Nat :=
  sendFrame (opcode :: params)

/-- Fuelled worker for `interleavings`; the fuel is an upper bound on the
total number of remaining actions, so structural recursion on it keeps the
function kernel-reducible. -/
def interleavingsAux : Nat → List Nat → List Nat → List (List Nat)
  | 0, xs, ys => [xs ++ ys]
  | _ + 1, [], ys => [ys]
  | _ + 1, x :: xs, [] => [x :: xs]
  | n + 1, x :: xs, y :: ys =>
      (interleavingsAux n xs (y :: ys)).map (x :: ·) ++
        (interleavingsAux n (x :: xs) ys).map (y :: ·)

/-- All interleavings of two action sequences: the possible wire traces when
two unsynchronised writers emit their byte sequences concurrently. -/
def interleavings (xs ys : List Nat) : List (List Nat) :=
  interleavingsAux (xs.length + ys.length) xs ys

/-! Status-line decoding (`AAPController.get_playback_status`, lines 81-91).
Response lines are modelled as `List Char`; `splitComma` embeds Python
`str.split(",")`, `pyIsDigit` embeds `str.isdigit` (restricted to the ASCII
decimal digits the claims exercise), `digitsToNat` embeds `int(...)` on an
all-digit string. -/

/-- Python `data.split(",")`: splitting an empty string yields `[""]`, so
the result always has at least one field. -/
def splitComma : List Char → List (List Char)
  | [] => [[]]
  | c :: rest =>
      match splitComma rest with
      | [] => [[c]]
      | f :: fs => if c = ',' then [] :: f :: fs else (c :: f) :: fs

/-- Python `s.isdigit()` on ASCII text: nonempty and all decimal digits. -/
def pyIsDigit (s : List Char) : Bool :=
  !s.isEmpty && s.all (fun c => c.isDigit)

/-- Python `int(s)` for an all-digit string: the decimal value. -/
def digitsToNat (s : List Char) : Nat :=
  s.foldl (fun n c => n * 10 + (c.toNat - 48)) 0

/-- Result record of `get_playback_status`. -/
structure PlaybackStatus where
  state : List Char
  duration : Nat
  position : Nat
deriving DecidableEq, Repr

/-- Embeds the decoding in `AAPController.get_playback_status`: split the
response line on commas; `state` is `parts[0] if parts else "unknown"`,
`duration` is `int(parts[1]) if len(parts) > 1 and parts[1].isdigit() else 0`,
`position` likewise from `parts[2]`. -/
def get_playback_status (data : List Char) : PlaybackStatus :=
  let parts := splitComma data
  { state :=
      match parts with
      | [] => "unknown".toList
      | s :: _ => s
    duration :=
      match parts.get? 1 with
      | some s => if pyIsDigit s then digitsToNat s else 0
      | none => 0
    position :=
      match parts.get? 2 with
      | some s => if pyIsDigit s then digitsToNat s else 0
      | none => 0 }

/-! Partition resolution: `udev_listener.find_ipod_partition` (lines 37-57)
and `utils.detect_ipod_device` (lines 90-120). -/

/-- Python exceptions, as far as the embedded control flow distinguishes
them. -/
inductive PyErr
  | calledProcessError (rc : Nat)
  | timeoutExpired
  | exception
deriving DecidableEq, Repr

/-- Python `max(x :: xs, key)`: fold that replaces the running best only on
a strictly larger key, so ties keep the first-seen element. -/
def pyMax {α : Type} (key : α → Nat) (x : α) (xs : List α) : α :=
  xs.foldl (fun best y => if key best < key y then y else best) x

/-- Selection rule in the spec's words: the candidate with the largest
reported size, ties broken by first-seen order. -/
def specLargestFirst {α : Type} (key : α → Nat) : List α → Option α
  | [] => none
  | x :: xs =>
      match specLargestFirst key xs with
      | none => some x
      | some m => if key x < key m then some m else some x

/-- A udev child device, with the properties `find_ipod_partition` reads:
`ID_FS_TYPE` (absent modelled as `none`), the integer `size` property, and
the device node. -/
structure UdevPartition where
  fstype : Option String
  size : Nat
  node : String
deriving DecidableEq, Repr

/-- The filter in `find_ipod_partition`:
`p.get("ID_FS_TYPE") in ("vfat", "fat32")`. -/
def isVfatUdev (p : UdevPartition) : Bool :=
  p.fstype == some "vfat" || p.fstype == some "fat32"

/-- Embeds `find_ipod_partition`: on any exception while reading the parent
device's children it logs and returns `None`; otherwise it filters to
VFAT/FAT32 children, returns `None` when there are none, and else the
device node of the size-largest one (Python `max` by `size`). -/
def find_ipod_partition (children : Except PyErr (List UdevPartition)) :
    Option String :=
  match children with
  | .error _ => none
  | .ok partitions =>
      match partitions.filter isVfatUdev with
      | [] => none
      | x :: xs => some (pyMax (fun p => p.size) x xs).node

/-- An `lsblk --json` child entry as `detect_ipod_device` reads it. -/
structure LsblkPart where
  name : String
  fstype : Option String
  size : Nat
deriving DecidableEq, Repr

/-- An `lsblk --json` top-level block device. -/
structure LsblkDev where
  children : List LsblkPart
deriving DecidableEq, Repr

/-- Configured fallback device path (`config.ipod.device_path` default). -/
def IPOD_DEVICE : String := "/dev/disk/by-label/IPOD"

/-- Python `str.lower()` on ASCII text, written on the character list so
that it reduces in the kernel. -/
def strLower (s : String) : String :=
  ⟨s.data.map Char.toLower⟩

/-- The filter in `detect_ipod_device`:
`(part.get("fstype") or "").lower() in {"vfat", "fat"}`. -/
def isFatLsblk (part : LsblkPart) : Bool :=
  let fstype := strLower (part.fstype.getD "")
  fstype == "vfat" || fstype == "fat"

/-- Embeds `detect_ipod_device`: collect `(size, name)` for every FAT-typed
child of every block device in the `lsblk` output; if any candidate exists
return `"/dev/" + name` of the size-largest one, otherwise (and on any
failure of `lsblk` or its JSON parse, modelled as `none` input) fall back
to the configured `IPOD_DEVICE`. -/
def detect_ipod_device (lsblk : Option (List LsblkDev)) : String :=
  match lsblk with
  | none => IPOD_DEVICE
  | some devices =>
      let candidates := devices.foldl
        (fun acc dev =>
          acc ++ (dev.children.filter isFatLsblk).map
            (fun part => (part.size, part.name)))
        []
      match candidates with
      | [] => IPOD_DEVICE
      | c :: cs => "/dev/" ++ (pyMax (fun p => p.1) c cs).2

/-! Mount lifecycle: `udev_listener.mount_partition` / `unmount_partition`
(lines 92-159), `utils.mount_ipod` / `eject_ipod` (lines 157-233), and the
`listen` event loop (lines 174-222). External commands are oracles; the
world state records what the claims observe (mounted flag, marker file,
command invocation counts). -/

/-- Outcome of one `subprocess.run` invocation of an external command. -/
inductive CmdOutcome
  | completed (rc : Nat)
  | timedOut
deriving DecidableEq, Repr

/-- Observable mount-subsystem state for the udev-listener functions. -/
structure MountState where
  mounted : Bool          -- mountpoint -q reports the mount point in use
  mountCmdCalls : Nat     -- privileged mount invocations so far
  umountCmdCalls : Nat    -- umount invocations so far (graceful or forced)
deriving DecidableEq, Repr

/-- Oracle fixing the outcomes of the external commands one
mount/unmount cycle can run. -/
structure MountOracle where
  mountCmd : CmdOutcome        -- the privileged vfat mount
  verifyOk : Bool              -- result of _verify_mount(MOUNT_POINT)
  umountCmd : CmdOutcome       -- umount MOUNT_POINT
  umountForceCmd : CmdOutcome  -- umount -f MOUNT_POINT
deriving DecidableEq, Repr

/-- Embeds `unmount_partition`: no-op when not mounted; graceful umount
first; on a non-zero exit try the forced umount; a timeout or a second
failure is caught and logged, leaving the point mounted. -/
def unmount_partition (s : MountState) (o : MountOracle) : MountState :=
  if s.mounted then
    match o.umountCmd with
    | .completed 0 =>
        { s with mounted := false, umountCmdCalls := s.umountCmdCalls + 1 }
    | .completed _ =>
        match o.umountForceCmd with
        | .completed 0 =>
            { s with mounted := false, umountCmdCalls := s.umountCmdCalls + 2 }
        | .completed _ => { s with umountCmdCalls := s.umountCmdCalls + 2 }
        | .timedOut => { s with umountCmdCalls := s.umountCmdCalls + 2 }
    | .timedOut => { s with umountCmdCalls := s.umountCmdCalls + 1 }
  else s

/-- Embeds `mount_partition`: return `True` at once when `mountpoint -q`
already reports the point in use (no privileged mount call); otherwise run
the privileged mount; on exit 0 verify the layout and, when verification
fails, unmount again and return `False`; non-zero exits and timeouts
return `False`. -/
def mount_partition (s : MountState) (o : MountOracle) : Bool × MountState :=
  if s.mounted then (true, s)
  else
    match o.mountCmd with
    | .completed 0 =>
        let s1 := { s with mounted := true, mountCmdCalls := s.mountCmdCalls + 1 }
        if o.verifyOk then (true, s1)
        else (false, unmount_partition s1 o)
    | .completed _ => (false, { s with mountCmdCalls := s.mountCmdCalls + 1 })
    | .timedOut => (false, { s with mountCmdCalls := s.mountCmdCalls + 1 })

/-- World state observed by `eject_ipod`. -/
structure EjectWorld where
  isMounted : Bool     -- os.path.ismount(IPOD_MOUNT)
  statusMarker : Bool  -- IPOD_STATUS_FILE present
deriving DecidableEq, Repr

/-- Exit statuses of the two commands `eject_ipod` may run. -/
structure EjectOracle where
  umountRc : Nat
  ejectRc : Nat
deriving DecidableEq, Repr

/-- Embeds `eject_ipod`: when mounted, run `umount` then `eject` through
`_run` with `check=True`, so a non-zero exit raises `CalledProcessError`
out of the function; only after both commands (or when nothing is mounted)
is the status marker unlinked. -/
def eject_ipod (w : EjectWorld) (o : EjectOracle) :
    EjectWorld × Option PyErr :=
  if w.isMounted then
    if o.umountRc ≠ 0 then
      (w, some (.calledProcessError o.umountRc))
    else
      let w1 : EjectWorld := { w with isMounted := false }
      if o.ejectRc ≠ 0 then (w1, some (.calledProcessError o.ejectRc))
      else ({ w1 with statusMarker := false }, none)
  else ({ w with statusMarker := false }, none)

/-! The hotplug listener loop. -/

/-- udev `device_type` values the listener distinguishes. -/
inductive DevType
  | usb_device
  | partition
  | disk
  | other
deriving DecidableEq, Repr

/-- A udev event as `listen` reads it (`dev.get` of an absent property is
`None`). -/
structure UdevEvent where
  action : String
  vendorId : Option String
  modelId : Option String
  devType : DevType
deriving DecidableEq, Repr

/-- Oracle for the external effects one attach/detach iteration can
trigger. -/
structure StepOracle where
  children : Except PyErr (List UdevPartition)  -- device.parent.children
  mount : MountOracle
  sync : Except PyErr Unit                      -- sync_queue(MOUNT_POINT)

/-- Listener-visible state: connection-marker file, mount subsystem state,
and how many sync runs completed. -/
structure ListenerState where
  marker : Bool
  mount : MountState
  syncRuns : Nat
deriving DecidableEq, Repr

/-- The body of the `try` block in `listen`'s attach branch: resolve the
partition (`continue` when none is found), mount it, and on success run the
sync callback; the second component is the exception escaping the body, if
any. -/
def listen_attach_try (s : ListenerState) (o : StepOracle) :
    ListenerState × Option PyErr :=
  match find_ipod_partition o.children with
  | none => (s, none)
  | some _ =>
      let (ok, ms) := mount_partition s.mount o.mount
      let s1 := { s with mount := ms }
      if ok then
        match o.sync with
        | .ok _ => ({ s1 with syncRuns := s1.syncRuns + 1 }, none)
        | .error e => (s1, some e)
      else (s1, none)

/-- One iteration of the `listen` event loop: filter by vendor/product; on
a matching `add` of a usb_device or partition, `_set_connected(True)` and
then the try body whose escaping exception the `except Exception` handler
swallows (log only); on a matching `remove` of a usb_device,
`unmount_partition()` then `_set_connected(False)`. -/
def listen_step (vendor product : String) (s : ListenerState)
    (ev : UdevEvent) (o : StepOracle) : ListenerState :=
  if ev.vendorId == some vendor && ev.modelId == some product then
    if ev.action == "add" &&
        (ev.devType == DevType.usb_device || ev.devType == DevType.partition) then
      let s1 : ListenerState := { s with marker := true }
      (listen_attach_try s1 o).1
    else if ev.action == "remove" && ev.devType == DevType.usb_device then
      { s with mount := unmount_partition s.mount o.mount, marker := false }
    else s
  else s

/-- The `listen` loop over a finite prefix of the event stream, counting
the events it has consumed. -/
def listenRun (vendor product : String) :
    ListenerState → List (UdevEvent × StepOracle) → ListenerState × Nat
  | s, [] => (s, 0)
  | s, (ev, o) :: rest =>
      let r := listenRun vendor product (listen_step vendor product s ev o) rest
      (r.1, r.2 + 1)

/-! `utils.mount_ipod` privilege-failure classification. -/

/-- Does a character-list start with the given needle. -/
def startsWith : List Char → List Char → Bool
  | [], _ => true
  | _ :: _, [] => false
  | n :: ns, h :: hs => n == h && startsWith ns hs

/-- Python `needle in hay` on strings: substring containment. -/
def containsSub (needle : List Char) : List Char → Bool
  | [] => needle.isEmpty
  | h :: hs => startsWith needle (h :: hs) || containsSub needle hs

/-- World state observed by `mount_ipod` once the device path is known. -/
structure MountIpodWorld where
  alreadyMounted : Bool  -- os.path.ismount(IPOD_MOUNT)
  deviceExists : Bool    -- Path(device).exists()
  statusFile : Bool      -- IPOD_STATUS_FILE present
deriving DecidableEq, Repr

/-- How a `mount_ipod` call ends. -/
inductive MountIpodResult
  | returned
  | raisedCalledProcess (rc : Nat)
  | raisedRuntime
deriving DecidableEq, Repr

/-- Embeds `mount_ipod` from the point where the device path is fixed:
no-op plus status write when already mounted; `RuntimeError` when the
device node is missing; otherwise run the privileged `mount-ipod` helper —
exit 0 writes the status file and returns; a `CalledProcessError` is
swallowed (configuration error, log and return) exactly when
`exc.returncode == 1` and `"password" in (exc.stderr or "").lower()`, and
re-raised for every other failure. -/
def mount_ipod (w : MountIpodWorld) (rc : Nat) (stderr : Option String) :
    MountIpodWorld × MountIpodResult :=
  if w.alreadyMounted then
    ({ w with statusFile := true }, .returned)
  else if !w.deviceExists then
    (w, .raisedRuntime)
  else if rc = 0 then
    ({ w with alreadyMounted := true, statusFile := true }, .returned)
  else if rc == 1 && containsSub "password".toList (strLower (stderr.getD "")).data then
    (w, .returned)
  else
    (w, .raisedCalledProcess rc)

example : sendFrame [0x00] = [0xFF, 0x55, 0x01, 0x00, 0xFF] := by decide

example : checksum [0x00] = 0 := by decide

example : checksum [1, 0] = 255 := by decide

/-- C1: the claim says the final byte is the checksum of the payload bytes
only; at `opcode = 0x00`, `params = []` the code instead appends the
checksum over the length byte and the payload, so the claimed frame is not
what `encode` produces. -/
theorem encode_checksum_claim_counterexample :
    encode 0x00 [] ≠ [0xFF, 0x55, 1, 0x00, checksum [0x00]] := by
  decide

/-- C1 (amended): every encoded frame begins with `0xFF 0x55`, its third
byte is the payload length, its length is payload length plus four, and its
final byte is the checksum over bytes 3..end-1 of the frame, i.e. over the
length byte followed by the payload (not over the payload alone). -/
theorem encode_frame_amended (opcode : Nat) (params : List Nat) :
    (encode opcode params).take 2 = [0xFF, 0x55] ∧
    (encode opcode params).get? 2 = some (opcode :: params).length ∧
    (encode opcode params).getLast? =
      some (checksum ((opcode :: params).length :: opcode :: params)) ∧
    (encode opcode params).length = (opcode :: params).length + 4 := by
  refine ⟨rfl, rfl, ?_, ?_⟩
  · rw [show encode opcode params =
        ([0xFF, 0x55, (opcode :: params).length] ++ (opcode :: params)) ++
          [checksum ((opcode :: params).length :: (opcode :: params))] from rfl,
      List.getLast?_append_cons]
    rfl
  · simp [encode, sendFrame]

example : splitComma "playing,180,42".toList =
    ["playing".toList, "180".toList, "42".toList] := by decide

/-- Splitting on commas never yields an empty list of fields. -/
theorem splitComma_ne_nil (l : List Char) : splitComma l ≠ [] := by
  cases l with
  | nil => simp [splitComma]
  | cons c rest =>
      simp only [splitComma]
      cases h : splitComma rest with
      | nil => simp
      | cons f fs =>
          by_cases hc : c = ',' <;> simp [hc]

/-- C5: on the empty response line the decoder's state field is the empty
string, not `"unknown"` as the claim's missing-state clause requires,
because Python splitting yields `[""]` rather than `[]`. -/
theorem get_playback_status_claim_counterexample :
    (get_playback_status []).state = [] ∧
      (get_playback_status []).state ≠ "unknown".toList := by
  decide

/-- C5 (amended): decoding splits on commas and never raises; the state is
always the text before the first comma (splitting never yields zero fields,
so the `"unknown"` default is unreachable and an empty line gives the empty
state); a duration or position field that is not an all-digit string yields
0; the well-formed line `"playing,180,42"` decodes to
`{state := "playing", duration := 180, position := 42}`. -/
theorem get_playback_status_amended :
    (∀ data : List Char, ∃ s rest, splitComma data = s :: rest ∧
      (get_playback_status data).state = s) ∧
    (∀ data s d rest, splitComma data = s :: d :: rest → pyIsDigit d = false →
      (get_playback_status data).duration = 0) ∧
    (∀ data s d p rest, splitComma data = s :: d :: p :: rest →
      pyIsDigit p = false → (get_playback_status data).position = 0) ∧
    get_playback_status "playing,180,42".toList =
      ⟨"playing".toList, 180, 42⟩ := by
  refine ⟨?_, ?_, ?_, by decide⟩
  · intro data
    cases h : splitComma data with
    | nil => exact absurd h (splitComma_ne_nil data)
    | cons s rest => exact ⟨s, rest, rfl, by simp [get_playback_status, h]⟩
  · intro data s d rest h hd
    simp [get_playback_status, h, hd]
  · intro data s d p rest h hp
    simp [get_playback_status, h, hp]

/-- C5 amended witness: the non-numeric-duration line `"playing,x,42"`
decodes with duration 0. -/
theorem get_playback_status_amended_witness :
    (get_playback_status "playing,x,42".toList).duration = 0 :=
  get_playback_status_amended.2.1 "playing,x,42".toList
    "playing".toList "x".toList ["42".toList] (by decide) (by decide)

theorem pyMax_cons {α : Type} (key : α → Nat) (x y : α) (ys : List α) :
    pyMax key x (y :: ys) = pyMax key (if key x < key y then y else x) ys :=
  rfl

theorem key_le_pyMax {α : Type} (key : α → Nat) (x : α) (xs : List α) :
    key x ≤ key (pyMax key x xs) := by
  induction xs generalizing x with
  | nil => exact Nat.le_refl _
  | cons y ys ih =>
      rw [pyMax_cons]
      by_cases h : key x < key y
      · rw [if_pos h]
        exact Nat.le_trans (Nat.le_of_lt h) (ih y)
      · rw [if_neg h]
        exact ih x

theorem pyMax_start_dominates {α : Type} (key : α → Nat) (a b : α)
    (l : List α) (hba : key b ≤ key a) :
    pyMax key a l = if key a < key (pyMax key b l) then pyMax key b l else a := by
  induction l generalizing a b with
  | nil =>
      rw [pyMax, pyMax, List.foldl_nil, List.foldl_nil, if_neg (Nat.not_lt.mpr hba)]
  | cons z zs ih =>
      rw [pyMax_cons, pyMax_cons]
      by_cases h1 : key a < key z
      · rw [if_pos h1, if_pos (Nat.lt_of_le_of_lt hba h1),
          if_pos (Nat.lt_of_lt_of_le h1 (key_le_pyMax key z zs))]
      · rw [if_neg h1]
        by_cases h2 : key b < key z
        · rw [if_pos h2]
          exact ih a z (Nat.not_lt.mp h1)
        · rw [if_neg h2]
          exact ih a b hba

/-- The Python `max`-by-key fold picks exactly the spec's largest-size,
first-seen-tie candidate. -/
theorem specLargestFirst_eq_pyMax {α : Type} (key : α → Nat) (x : α)
    (xs : List α) :
    specLargestFirst key (x :: xs) = some (pyMax key x xs) := by
  induction xs generalizing x with
  | nil => rfl
  | cons y ys ih =>
      show (match specLargestFirst key (y :: ys) with
        | none => some x
        | some m => if key x < key m then some m else some x) = _
      rw [ih y, pyMax_cons]
      have hred : (match some (pyMax key y ys) with
          | none => some x
          | some m => if key x < key m then some m else some x) =
            if key x < key (pyMax key y ys) then some (pyMax key y ys)
            else some x := rfl
      rw [hred]
      by_cases h : key x < key y
      · rw [if_pos h]
        have hxy : key x < key (pyMax key y ys) :=
          Nat.lt_of_lt_of_le h (key_le_pyMax key y ys)
        rw [if_pos hxy]
      · rw [if_neg h, pyMax_start_dominates key x y ys (Nat.not_lt.mp h)]
        by_cases h2 : key x < key (pyMax key y ys)
        · rw [if_pos h2, if_pos h2]
        · rw [if_neg h2, if_neg h2]

/-- C4: with no FAT partition present, `detect_ipod_device` does not report
"not found" — it returns the configured substitute device
`/dev/disk/by-label/IPOD`. -/
theorem detect_ipod_device_claim_counterexample :
    detect_ipod_device (some [⟨[⟨"sda1", some "ext4", 1000⟩]⟩]) =
        IPOD_DEVICE ∧
      IPOD_DEVICE = "/dev/disk/by-label/IPOD" := by
  constructor
  · rfl
  · rfl

/-- C4 (amended): `find_ipod_partition` filters the children to
VFAT/FAT32, picks the largest-size candidate with ties broken by first-seen
order (it agrees with the spec's selection rule), returns the size-500
candidate out of sizes {100, 500, 200}, and yields `none` exactly when no
FAT partition exists; `detect_ipod_device`, however, answers the no-FAT
case with the configured fallback device instead of "not found". -/
theorem find_ipod_partition_amended :
    (∀ partitions : List UdevPartition,
      find_ipod_partition (.ok partitions) =
        (specLargestFirst (fun p => p.size)
          (partitions.filter isVfatUdev)).map (fun p => p.node)) ∧
    (∀ partitions : List UdevPartition,
      find_ipod_partition (.ok partitions) = none ↔
        partitions.filter isVfatUdev = []) ∧
    find_ipod_partition (.ok
        [⟨some "vfat", 100, "/dev/sda1"⟩, ⟨some "vfat", 500, "/dev/sda2"⟩,
          ⟨some "vfat", 200, "/dev/sda3"⟩]) = some "/dev/sda2" ∧
    (∀ devices : List LsblkDev,
      (∀ dev ∈ devices, dev.children.filter isFatLsblk = []) →
        detect_ipod_device (some devices) = IPOD_DEVICE) := by
  have hfind : ∀ partitions : List UdevPartition,
      find_ipod_partition (.ok partitions) =
        (specLargestFirst (fun p => p.size)
          (partitions.filter isVfatUdev)).map (fun p => p.node) := by
    intro partitions
    rw [find_ipod_partition]
    cases h : partitions.filter isVfatUdev with
    | nil => rfl
    | cons x xs => rw [specLargestFirst_eq_pyMax, Option.map_some']
  refine ⟨hfind, ?_, by decide, ?_⟩
  · intro partitions
    rw [find_ipod_partition]
    cases h : partitions.filter isVfatUdev with
    | nil => simp
    | cons x xs => simp
  · intro devices hall
    rw [detect_ipod_device]
    have hcand : devices.foldl
        (fun acc dev =>
          acc ++ (dev.children.filter isFatLsblk).map
            (fun part => (part.size, part.name)))
        [] = ([] : List (Nat × String)) := by
      have haux : ∀ (ds : List LsblkDev) (acc : List (Nat × String)),
          (∀ dev ∈ ds, dev.children.filter isFatLsblk = []) →
          ds.foldl (fun acc dev =>
            acc ++ (dev.children.filter isFatLsblk).map
              (fun part => (part.size, part.name))) acc = acc := by
        intro ds
        induction ds with
        | nil => intro acc _; rfl
        | cons d ds ih =>
            intro acc hds
            rw [List.foldl_cons, hds d (List.mem_cons_self d ds),
              List.map_nil, List.append_nil]
            exact ih acc fun dev hdev => hds dev (List.mem_cons_of_mem d hdev)
      exact haux devices [] hall
    rw [hcand]

/-- C4 amended witness: the no-FAT `lsblk` table makes `detect_ipod_device`
fall back, and the empty udev child list resolves to `none`. -/
theorem find_ipod_partition_amended_witness :
    detect_ipod_device (some [⟨[⟨"sdb1", none, 64⟩]⟩]) = IPOD_DEVICE ∧
      (find_ipod_partition (.ok []) = none ↔
        ([] : List UdevPartition).filter isVfatUdev = []) :=
  ⟨find_ipod_partition_amended.2.2.2 [⟨[⟨"sdb1", none, 64⟩]⟩]
      (by decide),
    find_ipod_partition_amended.2.1 []⟩

/-- C8: mounting is idempotent — an already-mounted point short-circuits to
success without touching the privileged mount command, so two consecutive
calls that start unmounted succeed twice with exactly one privileged mount
invocation. -/
theorem mount_partition_idempotent :
    (∀ s o, s.mounted = true → mount_partition s o = (true, s)) ∧
    (∀ s o, s.mounted = false → o.mountCmd = CmdOutcome.completed 0 →
      o.verifyOk = true →
      (mount_partition s o).1 = true ∧
      (mount_partition (mount_partition s o).2 o).1 = true ∧
      (mount_partition (mount_partition s o).2 o).2.mountCmdCalls =
        s.mountCmdCalls + 1 ∧
      (mount_partition (mount_partition s o).2 o).2 = (mount_partition s o).2) := by
  constructor
  · intro s o h
    simp [mount_partition, h]
  · intro s o h0 h1 h2
    simp [mount_partition, h0, h1, h2]

/-- C8 witness: starting unmounted with a succeeding mount command and a
passing verification, both calls succeed and one mount command ran. -/
theorem mount_partition_idempotent_witness :
    (mount_partition ⟨false, 0, 0⟩
        ⟨.completed 0, true, .completed 0, .completed 0⟩).1 = true ∧
    (mount_partition
        (mount_partition ⟨false, 0, 0⟩
          ⟨.completed 0, true, .completed 0, .completed 0⟩).2
        ⟨.completed 0, true, .completed 0, .completed 0⟩).1 = true ∧
    (mount_partition
        (mount_partition ⟨false, 0, 0⟩
          ⟨.completed 0, true, .completed 0, .completed 0⟩).2
        ⟨.completed 0, true, .completed 0, .completed 0⟩).2.mountCmdCalls =
      0 + 1 :=
  have h := mount_partition_idempotent.2 ⟨false, 0, 0⟩
    ⟨.completed 0, true, .completed 0, .completed 0⟩ rfl rfl rfl
  ⟨h.1, h.2.1, h.2.2.1⟩

/-- C10: when the mount command succeeds, verification fails, and both the
graceful and the forced unmount exit non-zero (exit 32 is umount's
failure status), `mount_partition` returns failure but the filesystem is
still mounted — the claim's "never leaves an unverified filesystem
mounted" does not hold. -/
theorem mount_partition_unmount_claim_counterexample :
    (mount_partition ⟨false, 0, 0⟩
        ⟨.completed 0, false, .completed 32, .completed 32⟩).1 = false ∧
    (mount_partition ⟨false, 0, 0⟩
        ⟨.completed 0, false, .completed 32, .completed 32⟩).2.mounted = true := by
  decide

/-- C10 (amended): when the mount command succeeds but verification fails,
`mount_partition` returns failure and attempts the unmount; the mount point
ends unmounted exactly when the graceful unmount succeeds or, after a
non-zero graceful exit, the forced unmount succeeds — if both fail the
filesystem stays mounted. -/
theorem mount_partition_verify_fail_amended (s : MountState) (o : MountOracle)
    (h0 : s.mounted = false) (h1 : o.mountCmd = CmdOutcome.completed 0)
    (h2 : o.verifyOk = false) :
    (mount_partition s o).1 = false ∧
    s.umountCmdCalls < (mount_partition s o).2.umountCmdCalls ∧
    ((mount_partition s o).2.mounted = false ↔
      (o.umountCmd = CmdOutcome.completed 0 ∨
        (∃ rc, rc ≠ 0 ∧ o.umountCmd = CmdOutcome.completed rc ∧
          o.umountForceCmd = CmdOutcome.completed 0))) := by
  cases hg : o.umountCmd with
  | completed rcg =>
      cases rcg with
      | zero =>
          simp [mount_partition, unmount_partition, h0, h1, h2, hg]
      | succ n =>
          cases hf : o.umountForceCmd with
          | completed rcf =>
              cases rcf with
              | zero =>
                  simp [mount_partition, unmount_partition, h0, h1, h2, hg, hf]
              | succ m =>
                  simp [mount_partition, unmount_partition, h0, h1, h2, hg, hf]
          | timedOut =>
              simp [mount_partition, unmount_partition, h0, h1, h2, hg, hf]
  | timedOut =>
      simp [mount_partition, unmount_partition, h0, h1, h2, hg]

/-- C10 amended witness: with a succeeding graceful unmount the failed
mount attempt ends with the point unmounted, the failure result, and the
unmount attempted. -/
theorem mount_partition_verify_fail_amended_witness :
    (mount_partition ⟨false, 0, 0⟩
        ⟨.completed 0, false, .completed 0, .completed 0⟩).1 = false ∧
    (0 : Nat) <
      (mount_partition ⟨false, 0, 0⟩
        ⟨.completed 0, false, .completed 0, .completed 0⟩).2.umountCmdCalls ∧
    (mount_partition ⟨false, 0, 0⟩
        ⟨.completed 0, false, .completed 0, .completed 0⟩).2.mounted = false :=
  have h := mount_partition_verify_fail_amended ⟨false, 0, 0⟩
    ⟨.completed 0, false, .completed 0, .completed 0⟩ rfl rfl rfl
  ⟨h.1, h.2.1, h.2.2.mpr (Or.inl rfl)⟩

/-- C2: a failing `umount` (exit 32) makes `eject_ipod` raise before the
marker unlink runs, so the connection marker survives the unmount
attempt. -/
theorem eject_ipod_marker_claim_counterexample :
    (eject_ipod ⟨true, true⟩ ⟨32, 0⟩).1.statusMarker = true ∧
    (eject_ipod ⟨true, true⟩ ⟨32, 0⟩).2 =
      some (PyErr.calledProcessError 32) := by
  decide

/-- The attach try-body never touches the connection marker. -/
theorem listen_attach_try_marker (s : ListenerState) (o : StepOracle) :
    (listen_attach_try s o).1.marker = s.marker := by
  rw [listen_attach_try]
  cases find_ipod_partition o.children with
  | none => rfl
  | some p =>
      cases o.sync with
      | ok u => by_cases h : (mount_partition s.mount o.mount).1 <;> simp [h]
      | error e => by_cases h : (mount_partition s.mount o.mount).1 <;> simp [h]

/-- C6: whatever outcome the oracles assign to partition resolution,
mounting and the sync callback — including raising — every event of the
stream is consumed: the loop handles each event with `listen_step` and
continues with the rest, and the number of consumed events always equals
the length of the stream. -/
theorem listen_loop_processes_all_events (vendor product : String)
    (s : ListenerState) (events : List (UdevEvent × StepOracle)) :
    (listenRun vendor product s events).2 = events.length ∧
    (∀ ev o rest,
      listenRun vendor product s ((ev, o) :: rest) =
        ((listenRun vendor product (listen_step vendor product s ev o) rest).1,
          (listenRun vendor product (listen_step vendor product s ev o) rest).2
            + 1)) := by
  constructor
  · induction events generalizing s with
    | nil => rfl
    | cons evo rest ih =>
        cases evo with
        | mk ev o =>
            show (listenRun vendor product
              (listen_step vendor product s ev o) rest).2 + 1 = rest.length + 1
            rw [ih]
  · intro ev o rest
    rfl

/-- C3: on a matching attach event whose partition resolution finds no FAT
partition, the listener has already created the connection marker — the
marker exists while the device is merely attached, never mounted nor
verified. -/
theorem listen_marker_claim_counterexample :
    (listen_step "05ac" "1209" ⟨false, ⟨false, 0, 0⟩, 0⟩
        ⟨"add", some "05ac", some "1209", DevType.usb_device⟩
        ⟨.ok [], ⟨.completed 0, true, .completed 0, .completed 0⟩,
          .ok ()⟩).marker = true ∧
    (listen_step "05ac" "1209" ⟨false, ⟨false, 0, 0⟩, 0⟩
        ⟨"add", some "05ac", some "1209", DevType.usb_device⟩
        ⟨.ok [], ⟨.completed 0, true, .completed 0, .completed 0⟩,
          .ok ()⟩).mount.mounted = false ∧
    (listen_step "05ac" "1209" ⟨false, ⟨false, 0, 0⟩, 0⟩
        ⟨"add", some "05ac", some "1209", DevType.usb_device⟩
        ⟨.ok [], ⟨.completed 0, true, .completed 0, .completed 0⟩,
          .ok ()⟩).mount.mountCmdCalls = 0 := by
  refine ⟨rfl, rfl, rfl⟩

/-- C3 (amended): the listener writes the connection marker immediately
upon receiving a matching attach event — before partition resolution,
mounting and verification — and the marker is set regardless of how those
steps turn out. -/
theorem listen_marker_on_attach_amended (vendor product : String)
    (s : ListenerState) (ev : UdevEvent) (o : StepOracle)
    (hv : ev.vendorId = some vendor) (hm : ev.modelId = some product)
    (ha : ev.action = "add")
    (ht : ev.devType = DevType.usb_device ∨ ev.devType = DevType.partition) :
    (listen_step vendor product s ev o).marker = true := by
  have hcond : (ev.vendorId == some vendor && ev.modelId == some product) = true := by
    rw [hv, hm]
    simp
  have hadd : (ev.action == "add" &&
      (ev.devType == DevType.usb_device || ev.devType == DevType.partition))
        = true := by
    rw [ha]
    rcases ht with h | h <;> rw [h] <;> simp
  rw [listen_step, if_pos hcond, if_pos hadd, listen_attach_try_marker]

/-- C3 amended witness: a matching attach event with a failing mount
command still sets the marker. -/
theorem listen_marker_on_attach_amended_witness :
    (listen_step "05ac" "1209" ⟨false, ⟨false, 0, 0⟩, 0⟩
        ⟨"add", some "05ac", some "1209", DevType.partition⟩
        ⟨.ok [⟨some "vfat", 100, "/dev/sda2"⟩],
          ⟨.completed 1, false, .completed 0, .completed 0⟩,
          .ok ()⟩).marker = true :=
  listen_marker_on_attach_amended "05ac" "1209" ⟨false, ⟨false, 0, 0⟩, 0⟩
    ⟨"add", some "05ac", some "1209", DevType.partition⟩
    ⟨.ok [⟨some "vfat", 100, "/dev/sda2"⟩],
      ⟨.completed 1, false, .completed 0, .completed 0⟩, .ok ()⟩
    rfl rfl rfl (Or.inr rfl)

/-- C2 (amended): the listener's detach path removes the marker whatever
the unmount outcome; `eject_ipod` removes it when nothing is mounted or
when its umount and eject commands exit 0 — equivalently whenever it
returns normally — but a non-zero exit raises before the unlink, leaving
the marker in place. -/
theorem unmount_marker_amended :
    (∀ (vendor product : String) (s : ListenerState) (ev : UdevEvent)
        (o : StepOracle),
      ev.vendorId = some vendor → ev.modelId = some product →
      ev.action = "remove" → ev.devType = DevType.usb_device →
      (listen_step vendor product s ev o).marker = false) ∧
    (∀ w o, w.isMounted = false → (eject_ipod w o).1.statusMarker = false) ∧
    (∀ w o, o.umountRc = 0 → o.ejectRc = 0 →
      (eject_ipod w o).1.statusMarker = false) ∧
    (∀ w o, (eject_ipod w o).2 = none →
      (eject_ipod w o).1.statusMarker = false) := by
  refine ⟨?_, ?_, ?_, ?_⟩
  · intro vendor product s ev o hv hm ha ht
    have hcond : (ev.vendorId == some vendor && ev.modelId == some product)
        = true := by
      rw [hv, hm]
      simp
    have hnadd : (ev.action == "add" &&
        (ev.devType == DevType.usb_device || ev.devType == DevType.partition))
          = false := by
      rw [ha]
      rfl
    have hrem : (ev.action == "remove" && ev.devType == DevType.usb_device)
        = true := by
      rw [ha, ht]
      rfl
    rw [listen_step, if_pos hcond, hnadd]
    rw [if_neg (by simp), if_pos hrem]
  · intro w o hw
    simp [eject_ipod, hw]
  · intro w o hu he
    by_cases hm : w.isMounted <;> simp [eject_ipod, hm, hu, he]
  · intro w o hnone
    by_cases hm : w.isMounted
    · by_cases hu : o.umountRc ≠ 0
      · rw [eject_ipod, if_pos hm, if_pos hu] at hnone
        exact absurd hnone (by simp)
      · by_cases he : o.ejectRc ≠ 0
        · rw [eject_ipod, if_pos hm, if_neg hu, if_pos he] at hnone
          exact absurd hnone (by simp)
        · simp [eject_ipod, hm, hu, he]
    · simp [eject_ipod, hm]

/-- C2 amended witness: a matching detach with a failing forced unmount
still ends with the marker absent, and a fully successful eject removes
it too. -/
theorem unmount_marker_amended_witness :
    (listen_step "05ac" "1209" ⟨true, ⟨true, 1, 0⟩, 1⟩
        ⟨"remove", some "05ac", some "1209", DevType.usb_device⟩
        ⟨.ok [], ⟨.completed 0, true, .completed 32, .completed 32⟩,
          .ok ()⟩).marker = false ∧
    (eject_ipod ⟨true, true⟩ ⟨0, 0⟩).1.statusMarker = false :=
  ⟨unmount_marker_amended.1 "05ac" "1209" ⟨true, ⟨true, 1, 0⟩, 1⟩
      ⟨"remove", some "05ac", some "1209", DevType.usb_device⟩
      ⟨.ok [], ⟨.completed 0, true, .completed 32, .completed 32⟩, .ok ()⟩
      rfl rfl rfl rfl,
    unmount_marker_amended.2.2.1 ⟨true, true⟩ ⟨0, 0⟩ rfl rfl⟩

/-- C7: a mount helper failing with exit status 2 and the credential
message "sudo: a password is required" is re-raised, although the claim
requires every non-zero exit with credential text to return quietly. -/
theorem mount_ipod_claim_counterexample :
    (mount_ipod ⟨false, true, false⟩ 2
        (some "sudo: a password is required")).2 =
      MountIpodResult.raisedCalledProcess 2 := by
  decide

/-- C7 (amended): with the point not yet mounted and the device present, a
non-zero exit of the privileged mount command returns without raising
exactly when the exit status is 1 and the error text contains "password"
case-insensitively; every other non-zero exit re-raises the command
failure. -/
theorem mount_ipod_privilege_amended (w : MountIpodWorld) (rc : Nat)
    (stderr : Option String) (hw0 : w.alreadyMounted = false)
    (hw1 : w.deviceExists = true) (hrc : rc ≠ 0) :
    ((mount_ipod w rc stderr).2 = MountIpodResult.returned ↔
      (rc = 1 ∧
        containsSub "password".toList (strLower (stderr.getD "")).data = true)) ∧
    (¬(rc = 1 ∧
        containsSub "password".toList (strLower (stderr.getD "")).data = true) →
      (mount_ipod w rc stderr).2 = MountIpodResult.raisedCalledProcess rc) := by
  have h1 : ¬(w.alreadyMounted = true) := by
    rw [hw0]
    decide
  have h2 : ¬((!w.deviceExists) = true) := by
    rw [hw1]
    decide
  have hkey : mount_ipod w rc stderr =
      (if rc == 1 &&
          containsSub "password".toList (strLower (stderr.getD "")).data
        then (w, MountIpodResult.returned)
        else (w, MountIpodResult.raisedCalledProcess rc)) := by
    rw [mount_ipod, if_neg h1, if_neg h2, if_neg hrc]
  by_cases hp : (rc == 1 &&
      containsSub "password".toList (strLower (stderr.getD "")).data) = true
  · rw [hkey, if_pos hp]
    rw [Bool.and_eq_true, beq_iff_eq] at hp
    exact ⟨Iff.intro (fun _ => hp) (fun _ => rfl), fun hc => absurd hp hc⟩
  · rw [hkey, if_neg hp]
    have hp' : ¬(rc = 1 ∧
        containsSub "password".toList (strLower (stderr.getD "")).data = true) := by
      intro hc
      exact hp (by rw [Bool.and_eq_true, beq_iff_eq]; exact hc)
    refine ⟨Iff.intro (fun habs => absurd habs (by simp)) (fun hc => absurd hc hp'),
      fun _ => rfl⟩

/-- C7 amended witness: exit status 1 with "Sudo: a Password is required"
returns quietly. -/
theorem mount_ipod_privilege_amended_witness :
    (mount_ipod ⟨false, true, false⟩ 1
        (some "sudo: a password is required")).2 = MountIpodResult.returned :=
  (mount_ipod_privilege_amended ⟨false, true, false⟩ 1
      (some "sudo: a password is required") rfl rfl (by decide)).1.mpr
    ⟨rfl, by decide⟩

/-- C9: `AAPController` takes no lock around `_send`, so if the two writers
of two simultaneous `play_pause()` calls are interleaved at byte
granularity there is a schedule whose wire trace is not two complete,
back-to-back frames. -/
theorem play_pause_frames_can_interleave :
    ∃ t ∈ interleavings (sendFrame [0x00]) (sendFrame [0x00]),
      t ≠ sendFrame [0x00] ++ sendFrame [0x00] := by
  decide

end IpodDock

